import Mathlib

/-!
Verification of the interactive snapshot controller (yabsnap_wrapper.py).

The Python source is shallowly embedded: each function of the wrapper
becomes a Lean definition of the same name.  Effects are made explicit:

* results of `subprocess.run` (return code, stdout, stderr) and answers to
  interactive prompts are passed in as parameters (the environment is an
  oracle);
* every observable side effect (spawning the external tool, writing the
  script file, running the script, showing a notification, asking the
  yes/no question) is recorded as an `Event` in an output trace;
* a Python exception that escapes a handler is modelled by `Option`:
  `none` is a raised exception, `some` a normal return.
-/

namespace Yabsnap

/-- One parsed snapshot record: the fields of the JSON object the wrapper
reads (`snapshot['file']['timestamp']`, `snapshot['comment']`,
`snapshot['source']`). -/
structure SnapshotRecord where
  timestamp : String
  comment : String
  source : String
  deriving DecidableEq, Repr

/-- Observable side effects of the wrapper. -/
inductive Event where
  | runTool (cmd : List String)
  | notify (title msg : String)
  | yesNoPrompt (msg : String)
  | fileWrite (path content : String)
  | runScript (path : String)
  deriving DecidableEq, Repr

/-! ## The catalog: Python dict semantics

`SnapshotSelectorForm.create` builds
`{snapshot['file']['timestamp']: snapshot for snapshot in self.snapshots}`.
A Python dict comprehension inserts in order: a repeated key keeps its
original position but its value is overwritten by the later record. -/

/-- One insertion step of the dict comprehension on line 104: if the key is
already present its value is overwritten in place, otherwise the pair is
appended. -/
def dictInsert (d : List (String × SnapshotRecord)) (r : SnapshotRecord) :
    List (String × SnapshotRecord) :=
  if r.timestamp ∈ d.map Prod.fst then
    d.map (fun p => if p.1 = r.timestamp then (p.1, r) else p)
  else
    d ++ [(r.timestamp, r)]

/-- The dict `self.unique_snapshots` built on line 104. -/
def uniqueSnapshots (rs : List SnapshotRecord) : List (String × SnapshotRecord) :=
  rs.foldl dictInsert []

/-- The list `self.timestamp_list = list(self.unique_snapshots.keys())`
built on line 105. -/
def timestampList (rs : List SnapshotRecord) : List String :=
  (uniqueSnapshots rs).map Prod.fst

/-- Lookup in the association-list model of the dict (first pair whose key
matches; key lists built by `dictInsert` have no duplicate keys). -/
def lookupTs (d : List (String × SnapshotRecord)) (ts : String) :
    Option SnapshotRecord :=
  match d with
  | [] => none
  | p :: rest => if p.1 = ts then some p.2 else lookupTs rest ts

/-! Specification-side helpers used only to state the catalog claim. -/

/-- The distinct elements of a list in order of first appearance. -/
def firstAppearances (l : List String) : List String :=
  l.foldl (fun acc t => if t ∈ acc then acc else acc ++ [t]) []

/-- The last record of the list bearing the given timestamp. -/
def lastWith (ts : String) (rs : List SnapshotRecord) : Option SnapshotRecord :=
  rs.foldl (fun acc r => if r.timestamp = ts then some r else acc) none

/-! ### Catalog lemmas -/

theorem uniqueSnapshots_append_singleton (rs : List SnapshotRecord)
    (r : SnapshotRecord) :
    uniqueSnapshots (rs ++ [r]) = dictInsert (uniqueSnapshots rs) r := by
  simp [uniqueSnapshots, List.foldl_append]

theorem map_fst_update (d : List (String × SnapshotRecord)) (r : SnapshotRecord) :
    (d.map (fun p => if p.1 = r.timestamp then (p.1, r) else p)).map Prod.fst
      = d.map Prod.fst := by
  induction d with
  | nil => rfl
  | cons p rest ih =>
    have hp : (if p.1 = r.timestamp then (p.1, r) else p).1 = p.1 := by
      by_cases h : p.1 = r.timestamp <;> simp [h]
    simp [hp, ih]

theorem map_fst_dictInsert (d : List (String × SnapshotRecord))
    (r : SnapshotRecord) :
    (dictInsert d r).map Prod.fst =
      if r.timestamp ∈ d.map Prod.fst then d.map Prod.fst
      else d.map Prod.fst ++ [r.timestamp] := by
  unfold dictInsert
  by_cases h : r.timestamp ∈ d.map Prod.fst
  · rw [if_pos h, if_pos h, map_fst_update]
  · rw [if_neg h, if_neg h]
    simp

theorem lookupTs_append (d1 d2 : List (String × SnapshotRecord)) (ts : String) :
    lookupTs (d1 ++ d2) ts =
      match lookupTs d1 ts with
      | some v => some v
      | none => lookupTs d2 ts := by
  induction d1 with
  | nil => simp [lookupTs]
  | cons p rest ih =>
    by_cases h : p.1 = ts <;> simp [lookupTs, h, ih]

theorem lookupTs_eq_none_of_not_mem (d : List (String × SnapshotRecord))
    (ts : String) (h : ts ∉ d.map Prod.fst) : lookupTs d ts = none := by
  induction d with
  | nil => rfl
  | cons p rest ih =>
    simp only [List.map_cons, List.mem_cons] at h
    push_neg at h
    have h1 : ¬ p.1 = ts := fun hh => h.1 hh.symm
    simp [lookupTs, h1, ih h.2]

theorem lookupTs_update_self (d : List (String × SnapshotRecord))
    (r : SnapshotRecord) (hmem : r.timestamp ∈ d.map Prod.fst) :
    lookupTs (d.map (fun p => if p.1 = r.timestamp then (p.1, r) else p))
      r.timestamp = some r := by
  induction d with
  | nil => simp at hmem
  | cons p rest ih =>
    by_cases h : p.1 = r.timestamp
    · simp [lookupTs, h]
    · simp only [List.map_cons, List.mem_cons] at hmem
      rcases hmem with hmem | hmem



      · exact absurd hmem.symm h
      · simp [lookupTs, h, ih hmem]

theorem lookupTs_update_other (d : List (String × SnapshotRecord))
    (r : SnapshotRecord) (ts : String) (hne : ts ≠ r.timestamp) :
    lookupTs (d.map (fun p => if p.1 = r.timestamp then (p.1, r) else p)) ts
      = lookupTs d ts := by
  induction d with
  | nil => rfl
  | cons p rest ih =>
    by_cases h : p.1 = r.timestamp
    · have hr : r.timestamp ≠ ts := fun hh => hne hh.symm
      simp [lookupTs, h, hr, ih]
    · by_cases h2 : p.1 = ts <;> simp [lookupTs, h, h2, hne, ih]

theorem lookupTs_dictInsert (d : List (String × SnapshotRecord))
    (r : SnapshotRecord) (ts : String) :
    lookupTs (dictInsert d r) ts =
      if ts = r.timestamp then some r else lookupTs d ts := by
  unfold dictInsert
  by_cases hmem : r.timestamp ∈ d.map Prod.fst
  · rw [if_pos hmem]
    by_cases hts : ts = r.timestamp
    · rw [if_pos hts, hts, lookupTs_update_self d r hmem]
    · rw [if_neg hts, lookupTs_update_other d r ts hts]
  · rw [if_neg hmem, lookupTs_append]
    by_cases hts : ts = r.timestamp
    · rw [if_pos hts, hts, lookupTs_eq_none_of_not_mem d r.timestamp hmem]
      simp [lookupTs]
    · rw [if_neg hts]
      have h1 : ¬ r.timestamp = ts := fun hh => hts hh.symm
      cases hl : lookupTs d ts with
      | some v => simp
      | none => simp [lookupTs, h1]

theorem lastWith_append_singleton (ts : String) (rs : List SnapshotRecord)
    (r : SnapshotRecord) :
    lastWith ts (rs ++ [r]) =
      if r.timestamp = ts then some r else lastWith ts rs := by
  simp [lastWith, List.foldl_append]

theorem firstAppearances_append_singleton (l : List String) (t : String) :
    firstAppearances (l ++ [t]) =
      if t ∈ firstAppearances l then firstAppearances l
      else firstAppearances l ++ [t] := by
  simp [firstAppearances, List.foldl_append]

/-! ## Timestamp parsing and display

`format_timestamp` runs `datetime.strptime(timestamp, '%Y%m%d%H%M%S')` and
renders the result with `strftime('%d.%m.%y %H:%M')`.  `strptime` on this
all-digit format accepts exactly 14 digits split into fixed-width fields,
validated against calendar ranges (`datetime` requires year 1..9999, month
1..12, a day valid for the month, hour 0..23, minute 0..59; `%S` accepts
0..61); any string it cannot match raises `ValueError`, modelled as
`none`. -/

/-- Gregorian leap-year rule used by `datetime` for day-of-month bounds. -/
def isLeap (y : Nat) : Bool :=
  (y % 4 == 0 && y % 100 != 0) || y % 400 == 0

/-- Number of days of month `m` of year `y`. -/
def daysInMonth (y m : Nat) : Nat :=
  if m = 2 then (if isLeap y then 29 else 28)
  else if m = 4 ∨ m = 6 ∨ m = 9 ∨ m = 11 then 30
  else 31

/-- Decimal value of a digit string. -/
def digitsToNat (cs : List Char) : Nat :=
  cs.foldl (fun n c => n * 10 + (c.toNat - 48)) 0

/-- The parsed fields of a canonical `YYYYMMDDHHMMSS` timestamp. -/
structure ParsedStamp where
  year : Nat
  month : Nat
  day : Nat
  hour : Nat
  minute : Nat
  second : Nat
  deriving DecidableEq, Repr

/-- Model of `datetime.strptime(s, '%Y%m%d%H%M%S')`: `none` models the
`ValueError` the Python call raises on input it cannot match. -/
def strptime14 (s : String) : Option ParsedStamp :=
  let cs := s.data
  if cs.length = 14 ∧ cs.all Char.isDigit then
    let y := digitsToNat (cs.take 4)
    let mo := digitsToNat ((cs.drop 4).take 2)
    let d := digitsToNat ((cs.drop 6).take 2)
    let h := digitsToNat ((cs.drop 8).take 2)
    let mi := digitsToNat ((cs.drop 10).take 2)
    let se := digitsToNat ((cs.drop 12).take 2)
    if 1 ≤ y ∧ 1 ≤ mo ∧ mo ≤ 12 ∧ 1 ≤ d ∧ d ≤ daysInMonth y mo ∧
        h ≤ 23 ∧ mi ≤ 59 ∧ se ≤ 61 then
      some ⟨y, mo, d, h, mi, se⟩
    else none
  else none

/-- Two-digit zero-padded decimal rendering, as `strftime` produces for
`%d`, `%m`, `%y`, `%H` and `%M`. -/
def pad2 (n : Nat) : String :=
  (if n < 10 then "0" else "") ++ toString n

/-- Model of `dt.strftime('%d.%m.%y %H:%M')`. -/
def strftimeDisplay (p : ParsedStamp) : String :=
  pad2 p.day ++ "." ++ pad2 p.month ++ "." ++ pad2 (p.year % 100) ++ " " ++
    pad2 p.hour ++ ":" ++ pad2 p.minute

/-- Lines 19-21: `format_timestamp`.  `none` models the `ValueError` that
`strptime` raises on a malformed timestamp (the Python function has no
handler, so the exception propagates to the caller). -/
def format_timestamp (s : String) : Option String :=
  (strptime14 s).map strftimeDisplay

/-! ## Snapshot repository client

Each wrapper function takes the observed outcome of its `subprocess.run`
call (return code, stderr, and for the listing the per-line JSON parse
results) and returns the events it emits and its Python return value. -/

/-- The listing invocation `['yabsnap', 'list-json']`. -/
def listingCmd : List String := ["yabsnap", "list-json"]

/-- The list comprehension on line 13: each element of `lines` is the JSON
parse result of one stdout line (`none` = `json.loads` raised).  The
comprehension is all-or-nothing: one bad line makes the whole expression
raise, so no prefix of parsed records survives. -/
def parseLines : List (Option SnapshotRecord) → Option (List SnapshotRecord)
  | [] => some []
  | none :: _ => none
  | some r :: rest => (parseLines rest).map (r :: ·)

/-- Lines 7-17: `get_snapshots`.  Returns the parsed records and the emitted
events; both failure paths (non-zero exit, JSON parse error) notify the
user and return the empty list. -/
def get_snapshots (rc : Nat) (stderr : String)
    (lines : List (Option SnapshotRecord)) :
    List SnapshotRecord × List Event :=
  if rc ≠ 0 then
    ([], [Event.runTool listingCmd,
          Event.notify "Error" ("Error retrieving snapshot list:\n" ++ stderr)])
  else
    match parseLines lines with
    | none =>
        ([], [Event.runTool listingCmd,
              Event.notify "Error" "An error occurred: invalid JSON line"])
    | some rs => (rs, [Event.runTool listingCmd])

/-- Lines 23-32: `generate_rollback_script`.  Returns `result.stdout` on
exit 0, `None` (with an error notification) on non-zero exit. -/
def generate_rollback_script (ts : String) (rc : Nat) (stdout stderr : String) :
    Option String × List Event :=
  if rc ≠ 0 then
    (none, [Event.runTool ["yabsnap", "rollback-gen", ts],
            Event.notify "Error" ("Error generating rollback script:\n" ++ stderr)])
  else
    (some stdout, [Event.runTool ["yabsnap", "rollback-gen", ts]])

/-- Lines 34-40: `save_script_to_file`.  `writeOk` is whether the
`open`/`write` succeeded; on failure the exception is caught and only an
error notification is shown.  The function returns `None` either way: its
caller cannot observe whether persistence succeeded. -/
def save_script_to_file (script filename : String) (writeOk : Bool) :
    List Event :=
  if writeOk then
    [Event.fileWrite filename script,
     Event.notify "Success" ("Script saved successfully to " ++ filename)]
  else
    [Event.notify "Error" "An error occurred while saving the file"]

/-- Lines 42-47: `execute_script`.  The script is run in both cases; a
non-zero exit raises `CalledProcessError`, caught and notified. -/
def execute_script (filename : String) (execOk : Bool) : List Event :=
  if execOk then
    [Event.runScript filename,
     Event.notify "Success" ("Script " ++ filename ++ " executed successfully.")]
  else
    [Event.runScript filename,
     Event.notify "Error" "An error occurred during script execution"]

/-- The command list built on lines 51-53. -/
def delete_cmd (ts : String) (dry : Bool) : List String :=
  ["sudo", "yabsnap", "delete", ts] ++ (if dry then ["--dry-run"] else [])

/-- The command list built on lines 64-66. -/
def create_cmd (dry : Bool) : List String :=
  ["sudo", "yabsnap", "create"] ++ (if dry then ["--dry-run"] else [])

/-- The command list built on lines 77-79. -/
def create_recovery_cmd (dry : Bool) : List String :=
  ["sudo", "yabsnap", "create-recovery"] ++ (if dry then ["--dry-run"] else [])

/-- Lines 49-60: `delete_snapshot`. -/
def delete_snapshot (ts : String) (dry : Bool) (rc : Nat) (stderr : String) :
    List Event :=
  Event.runTool (delete_cmd ts dry) ::
    (if rc ≠ 0 then
      [Event.notify "Error" ("Error deleting snapshot:\n" ++ stderr)]
    else
      [Event.notify "Success"
        ("Snapshot deleted successfully" ++ (if dry then " (dry run)" else ""))])

/-- Lines 62-73: `create_snapshot`. -/
def create_snapshot (dry : Bool) (rc : Nat) (stderr : String) : List Event :=
  Event.runTool (create_cmd dry) ::
    (if rc ≠ 0 then
      [Event.notify "Error" ("Error creating snapshot:\n" ++ stderr)]
    else
      [Event.notify "Success"
        ("Snapshot created successfully" ++ (if dry then " (dry run)" else ""))])

/-- Lines 75-86: `create_recovery_snapshot`. -/
def create_recovery_snapshot (dry : Bool) (rc : Nat) (stderr : String) :
    List Event :=
  Event.runTool (create_recovery_cmd dry) ::
    (if rc ≠ 0 then
      [Event.notify "Error" ("Error creating recovery snapshot:\n" ++ stderr)]
    else
      [Event.notify "Success"
        ("Recovery snapshot created successfully" ++
          (if dry then " (dry run)" else ""))])

/-! ## Controller state and handlers -/

/-- The command-line arguments of the wrapper (lines 166-169). -/
structure Args where
  output : String
  dry_run : Bool
  deriving DecidableEq, Repr

/-- The state held by `SnapshotSelectorForm`: its raw record list, the
dict and key list built in `create`, the widget's selection value list
(`self.snapshot_list.value`, initially `[0]`) and the rendered display
strings (`self.snapshot_list.values`). -/
structure FormState where
  snapshots : List SnapshotRecord
  unique_snapshots : List (String × SnapshotRecord)
  timestamp_list : List String
  value : List Nat
  displayed : List String
  deriving DecidableEq, Repr

/-- The application state: the form plus the next-form register that
`setNextForm` writes (`none` ends the session; it starts as
`some "MAIN"`). -/
structure AppState where
  form : FormState
  nextForm : Option String
  deriving DecidableEq, Repr

/-- One display line of `update_snapshot_list` (line 117):
`f"{readable_time} - {comment} (source: {source})"`.  `none` models the
`ValueError` that `format_timestamp` raises on a malformed timestamp. -/
def renderLine (ts : String) (r : SnapshotRecord) : Option String :=
  (format_timestamp ts).map
    (fun t => t ++ " - " ++ r.comment ++ " (source: " ++ r.source ++ ")")

/-- The loop body of `update_snapshot_list` (lines 111-117): one line per
catalog timestamp, looked up in the dict and formatted.  `none` models a
raised exception (missing key or malformed timestamp). -/
def renderAll : List String → List (String × SnapshotRecord) →
    Option (List String)
  | [], _ => some []
  | ts :: rest, d =>
    match lookupTs d ts, format_timestamp ts with
    | some r, some t =>
        (renderAll rest d).map
          (fun tail =>
            (t ++ " - " ++ r.comment ++ " (source: " ++ r.source ++ ")") :: tail)
    | _, _ => none

/-- Lines 110-119: `update_snapshot_list` re-renders the display list from
`self.timestamp_list` and `self.unique_snapshots` (it does NOT read
`self.snapshots`). -/
def update_snapshot_list (f : FormState) : Option FormState :=
  (renderAll f.timestamp_list f.unique_snapshots).map
    (fun d => { f with displayed := d })

/-- Lines 102-108: `SnapshotSelectorForm.create` builds the dict, the key
list and the selection widget (value `[0]`), then renders. -/
def formCreate (rs : List SnapshotRecord) : Option FormState :=
  let uniq := uniqueSnapshots rs
  update_snapshot_list
    { snapshots := rs
      unique_snapshots := uniq
      timestamp_list := uniq.map Prod.fst
      value := [0]
      displayed := [] }

/-- Lines 94-99: `SnapshotSelectorApp.onStart`.  With no snapshots it shows
one informational notice and sets the next form to `None` (session ends);
otherwise it adds the main form.  The outer `none` models a raised
exception while building the form. -/
def onStart (rs : List SnapshotRecord) :
    Option (List Event × Option FormState) :=
  if rs.isEmpty then
    some ([Event.notify "Info" "No snapshots available for rollback."], none)
  else
    (formCreate rs).map (fun f => ([], some f))

/-- Lines 135-143: `SnapshotSelectorForm.on_ok`.  `genRc`, `genOut` and
`genErr` are the observed outcome of the `rollback-gen` call, `writeOk`
whether the file write succeeds, `userYes` the answer to the yes/no prompt
and `execOk` the script's exit status.  The outer `none` models the
`IndexError` when the selection is invalid. -/
def on_ok (args : Args) (st : AppState) (genRc : Nat) (genOut genErr : String)
    (writeOk userYes execOk : Bool) : Option (AppState × List Event) :=
  (st.form.value[0]?).bind fun idx =>
    (st.form.timestamp_list[idx]?).bind fun ts =>
      let g := generate_rollback_script ts genRc genOut genErr
      let ev2 :=
        match g.1 with
        | none => []
        | some script =>
          if script = "" then []
          else
            save_script_to_file script args.output writeOk ++
              [Event.yesNoPrompt "Do you want to execute the rollback script now?"] ++
              (if userYes then execute_script args.output execOk else [])
      some ({ st with nextForm := none }, g.2 ++ ev2)

/-- Lines 145-146: `on_cancel` just ends the session. -/
def on_cancel (st : AppState) : AppState × List Event :=
  ({ st with nextForm := none }, [])

/-- Lines 148-153: `on_delete` deletes the highlighted timestamp, fetches a
fresh listing into `self.snapshots`, and calls `update_snapshot_list`. -/
def on_delete (args : Args) (st : AppState) (delRc : Nat) (delStderr : String)
    (listRc : Nat) (listStderr : String)
    (lines : List (Option SnapshotRecord)) : Option (AppState × List Event) :=
  (st.form.value[0]?).bind fun idx =>
    (st.form.timestamp_list[idx]?).bind fun ts =>
      let ev1 := delete_snapshot ts args.dry_run delRc delStderr
      let p := get_snapshots listRc listStderr lines
      (update_snapshot_list { st.form with snapshots := p.1 }).map
        (fun f2 => ({ st with form := f2 }, ev1 ++ p.2))

/-- Lines 155-158: `on_create`, same refresh pattern as `on_delete`. -/
def on_create (args : Args) (st : AppState) (rc : Nat) (stderr : String)
    (listRc : Nat) (listStderr : String)
    (lines : List (Option SnapshotRecord)) : Option (AppState × List Event) :=
  let ev1 := create_snapshot args.dry_run rc stderr
  let p := get_snapshots listRc listStderr lines
  (update_snapshot_list { st.form with snapshots := p.1 }).map
    (fun f2 => ({ st with form := f2 }, ev1 ++ p.2))

/-- Lines 160-163: `on_create_recovery`, same refresh pattern. -/
def on_create_recovery (args : Args) (st : AppState) (rc : Nat)
    (stderr : String) (listRc : Nat) (listStderr : String)
    (lines : List (Option SnapshotRecord)) : Option (AppState × List Event) :=
  let ev1 := create_recovery_snapshot args.dry_run rc stderr
  let p := get_snapshots listRc listStderr lines
  (update_snapshot_list { st.form with snapshots := p.1 }).map
    (fun f2 => ({ st with form := f2 }, ev1 ++ p.2))

/-! ## Concrete states used by counterexamples and witnesses -/

/-- A sample record with a canonical timestamp. -/
def exRec : SnapshotRecord :=
  { timestamp := "20240315143000", comment := "a", source := "s" }

/-- The form state `create` builds from the single record `exRec`. -/
def exForm : FormState :=
  { snapshots := [exRec]
    unique_snapshots := [("20240315143000", exRec)]
    timestamp_list := ["20240315143000"]
    value := [0]
    displayed := ["15.03.24 14:30 - a (source: s)"] }

/-- The application state with the sample form live. -/
def exSt : AppState := { form := exForm, nextForm := some "MAIN" }

/-- Sample command-line arguments: default output path, no dry run. -/
def exArgs : Args := { output := "rollback.sh", dry_run := false }

/-- C1: the catalog built by `SnapshotSelectorForm.create` has exactly one
entry per distinct timestamp, ordered by first appearance in the input, and
the representative record stored for a timestamp is the LAST record of the
input bearing that timestamp (Python dict comprehension semantics: a
repeated key keeps its position but its value is overwritten).  This is the
claim amended in the representative record only: the claim as frozen says
the first record is kept. -/
theorem c1_amended (rs : List SnapshotRecord) :
    (timestampList rs).Nodup ∧
    timestampList rs = firstAppearances (rs.map SnapshotRecord.timestamp) ∧
    (∀ ts, ts ∈ timestampList rs ↔ ts ∈ rs.map SnapshotRecord.timestamp) ∧
    (∀ ts, lookupTs (uniqueSnapshots rs) ts = lastWith ts rs) := by
  induction rs using List.reverseRecOn with
  | nil =>
    refine ⟨List.nodup_nil, rfl, ?_, ?_⟩ <;> intro ts <;>
      simp [timestampList, uniqueSnapshots, firstAppearances, lastWith, lookupTs]
  | append_singleton rs r ih =>
    obtain ⟨ihNd, ihFA, ihMem, ihLk⟩ := ih
    have hkeys : timestampList (rs ++ [r]) =
        if r.timestamp ∈ timestampList rs then timestampList rs
        else timestampList rs ++ [r.timestamp] := by
      unfold timestampList
      rw [uniqueSnapshots_append_singleton, map_fst_dictInsert]
    refine ⟨?_, ?_, ?_, ?_⟩
    · rw [hkeys]
      by_cases hm : r.timestamp ∈ timestampList rs
      · rw [if_pos hm]; exact ihNd
      · rw [if_neg hm]
        refine List.Nodup.append ihNd (List.nodup_singleton _) ?_
        intro a ha hb
        have hab : a = r.timestamp := by simpa using hb
        exact hm (hab ▸ ha)
    · rw [hkeys, List.map_append]
      simp only [List.map_cons, List.map_nil]
      rw [firstAppearances_append_singleton, ← ihFA]
    · intro ts
      rw [hkeys]
      simp only [List.map_append, List.map_cons, List.map_nil]
      by_cases hm : r.timestamp ∈ timestampList rs
      · rw [if_pos hm]
        constructor
        · intro h
          exact List.mem_append_left _ ((ihMem ts).1 h)
        · intro h
          rcases List.mem_append.1 h with h | h
          · exact (ihMem ts).2 h
          · have hts : ts = r.timestamp := by simpa using h
            exact hts ▸ hm
      · rw [if_neg hm]
        constructor
        · intro h
          rcases List.mem_append.1 h with h | h
          · exact List.mem_append_left _ ((ihMem ts).1 h)
          · exact List.mem_append_right _ h
        · intro h
          rcases List.mem_append.1 h with h | h
          · exact List.mem_append_left _ ((ihMem ts).2 h)
          · exact List.mem_append_right _ h
    · intro ts
      rw [uniqueSnapshots_append_singleton, lookupTs_dictInsert,
        lastWith_append_singleton]
      by_cases hts : ts = r.timestamp
      · rw [if_pos hts, if_pos hts.symm]
      · rw [if_neg hts, if_neg (fun hh => hts hh.symm), ihLk ts]

/-- C1 counterexample: on input `[(T1,a), (T2,b), (T1,c)]` the catalog's
representative record for timestamp `T1` is the LAST record `(T1,c)`, not
the first record `(T1,a)` required by the claim. -/
theorem c1_counterexample :
    lookupTs (uniqueSnapshots
        [⟨"T1", "a", "s"⟩, ⟨"T2", "b", "s"⟩, ⟨"T1", "c", "s"⟩]) "T1"
      = some ⟨"T1", "c", "s"⟩ ∧
    lookupTs (uniqueSnapshots
        [⟨"T1", "a", "s"⟩, ⟨"T2", "b", "s"⟩, ⟨"T1", "c", "s"⟩]) "T1"
      ≠ some ⟨"T1", "a", "s"⟩ ∧
    timestampList [⟨"T1", "a", "s"⟩, ⟨"T2", "b", "s"⟩, ⟨"T1", "c", "s"⟩]
      = ["T1", "T2"] := by
  decide

/-- C6: `format_timestamp` maps the canonical timestamp `20240315143000` to
the display string `15.03.24 14:30`, and rejects (raises on, modelled as
`none`) every 14-character string containing a non-digit character. -/
theorem c6_confirmed :
    format_timestamp "20240315143000" = some "15.03.24 14:30" ∧
    ∀ s : String, s.data.length = 14 → ¬ s.data.all Char.isDigit →
      format_timestamp s = none := by
  constructor
  · decide
  · intro s _ hnd
    unfold format_timestamp strptime14
    rw [if_neg (fun hc => hnd hc.2)]
    rfl

/-- Witness for C6 at the concrete malformed input `2024031514300x`. -/
theorem c6_witness : format_timestamp "2024031514300x" = none :=
  c6_confirmed.2 "2024031514300x" (by decide) (by decide)

/-- C10: `format_timestamp` is not injective on valid canonical timestamps:
`20240315143000` and `20240315143001` differ only in the seconds field, both
parse, and both display as `15.03.24 14:30`. -/
theorem c10_confirmed :
    "20240315143000" ≠ "20240315143001" ∧
    (strptime14 "20240315143000").isSome = true ∧
    (strptime14 "20240315143001").isSome = true ∧
    format_timestamp "20240315143000" = format_timestamp "20240315143001" := by
  decide

/-- A bad line fails the whole parse: no prefix of records survives. -/
theorem parseLines_bad (recs : List SnapshotRecord)
    (post : List (Option SnapshotRecord)) :
    parseLines (recs.map some ++ none :: post) = none := by
  induction recs with
  | nil => rfl
  | cons r rest ih => simp [parseLines, ih]

/-- A successful `update_snapshot_list` changes only the displayed lines:
the raw record list, the dict and the key list are untouched. -/
theorem update_snapshot_list_catalog (f f2 : FormState)
    (h : update_snapshot_list f = some f2) :
    f2.unique_snapshots = f.unique_snapshots ∧
    f2.timestamp_list = f.timestamp_list ∧
    f2.snapshots = f.snapshots := by
  unfold update_snapshot_list at h
  cases hr : renderAll f.timestamp_list f.unique_snapshots with
  | none => rw [hr] at h; simp at h
  | some d =>
    rw [hr] at h
    simp only [Option.map_some', Option.some.injEq] at h
    rw [← h]
    exact ⟨rfl, rfl, rfl⟩

/-- C2 counterexample: a run of `on_ok` in which generation succeeds, the
file write FAILS (only an error notification, no `fileWrite` event), and
the user answers yes: the script is executed anyway, so execution is not
conditioned on persistence having succeeded. -/
theorem c2_counterexample :
    on_ok exArgs exSt 0 "script" "" false true true =
      some ({ exSt with nextForm := none },
        [Event.runTool ["yabsnap", "rollback-gen", "20240315143000"],
         Event.notify "Error" "An error occurred while saving the file",
         Event.yesNoPrompt "Do you want to execute the rollback script now?",
         Event.runScript "rollback.sh",
         Event.notify "Success" "Script rollback.sh executed successfully."]) ∧
    Event.runScript "rollback.sh" ∈
      [Event.runTool ["yabsnap", "rollback-gen", "20240315143000"],
       Event.notify "Error" "An error occurred while saving the file",
       Event.yesNoPrompt "Do you want to execute the rollback script now?",
       Event.runScript "rollback.sh",
       Event.notify "Success" "Script rollback.sh executed successfully."] ∧
    Event.fileWrite "rollback.sh" "script" ∉
      [Event.runTool ["yabsnap", "rollback-gen", "20240315143000"],
       Event.notify "Error" "An error occurred while saving the file",
       Event.yesNoPrompt "Do you want to execute the rollback script now?",
       Event.runScript "rollback.sh",
       Event.notify "Success" "Script rollback.sh executed successfully."] := by
  decide

/-- C2 amended: in `on_ok`, generation failure short-circuits before any
file write; on a non-empty generated script the trace is exactly the
persistence ATTEMPT (whose success is not checked), then the prompt, then
the execution only when the user answered yes; and a script execution
can only occur when the user answered yes. -/
theorem c2_amended (args : Args) (st : AppState) (genOut genErr : String)
    (writeOk userYes execOk : Bool) (idx : Nat) (ts : String)
    (h1 : st.form.value[0]? = some idx)
    (h2 : st.form.timestamp_list[idx]? = some ts) :
    (∀ k, on_ok args st (k + 1) genOut genErr writeOk userYes execOk =
        some ({ st with nextForm := none },
          [Event.runTool ["yabsnap", "rollback-gen", ts],
           Event.notify "Error" ("Error generating rollback script:\n" ++ genErr)])) ∧
    (genOut ≠ "" → on_ok args st 0 genOut genErr writeOk userYes execOk =
        some ({ st with nextForm := none },
          Event.runTool ["yabsnap", "rollback-gen", ts] ::
            (save_script_to_file genOut args.output writeOk ++
              Event.yesNoPrompt "Do you want to execute the rollback script now?" ::
                (if userYes then execute_script args.output execOk else [])))) ∧
    (∀ rc st2 ev, on_ok args st rc genOut genErr writeOk userYes execOk =
        some (st2, ev) → Event.runScript args.output ∈ ev → userYes = true) := by
  refine ⟨?_, ?_, ?_⟩
  · intro k
    simp [on_ok, h1, h2, generate_rollback_script]
  · intro hne
    simp [on_ok, h1, h2, generate_rollback_script, hne]
  · intro rc st2 ev heq hmem
    by_cases hy : userYes = true
    · exact hy
    · exfalso
      have hyf : userYes = false := by simpa using hy
      subst hyf
      rcases rc with _ | k
      · by_cases hg : genOut = ""
        · simp [on_ok, h1, h2, generate_rollback_script, hg] at heq
          rw [← heq.2] at hmem
          simp at hmem
        · by_cases hw : writeOk
          · simp [on_ok, h1, h2, generate_rollback_script, hg, hw,
              save_script_to_file] at heq
            rw [← heq.2] at hmem
            simp at hmem
          · have hwf : writeOk = false := by simpa using hw
            subst hwf
            simp [on_ok, h1, h2, generate_rollback_script, hg,
              save_script_to_file] at heq
            rw [← heq.2] at hmem
            simp at hmem
      · simp [on_ok, h1, h2, generate_rollback_script] at heq
        rw [← heq.2] at hmem
        simp at hmem

/-- Witness for C2: with the rollback-generation call failing (exit 1) the
trace is the tool call and the error notification only. -/
theorem c2_amended_witness :
    on_ok exArgs exSt 1 "s" "e" true false true =
      some ({ exSt with nextForm := none },
        [Event.runTool ["yabsnap", "rollback-gen", "20240315143000"],
         Event.notify "Error" ("Error generating rollback script:\n" ++ "e")]) :=
  (c2_amended exArgs exSt "s" "e" true false true 0 "20240315143000"
    rfl rfl).1 0

/-- C9: a generated script that is the empty string is falsy in Python, so
`on_ok` skips persistence, the prompt and execution entirely, exactly as on
a generation failure: the trace holds only the generation call. -/
theorem c9_confirmed (args : Args) (st : AppState) (genErr : String)
    (writeOk userYes execOk : Bool) (idx : Nat) (ts : String)
    (h1 : st.form.value[0]? = some idx)
    (h2 : st.form.timestamp_list[idx]? = some ts) :
    on_ok args st 0 "" genErr writeOk userYes execOk =
      some ({ st with nextForm := none },
        [Event.runTool ["yabsnap", "rollback-gen", ts]]) := by
  simp [on_ok, h1, h2, generate_rollback_script]

/-- Witness for C9 at the concrete sample state. -/
theorem c9_witness :
    on_ok exArgs exSt 0 "" "e" true true true =
      some ({ exSt with nextForm := none },
        [Event.runTool ["yabsnap", "rollback-gen", "20240315143000"]]) :=
  c9_confirmed exArgs exSt "e" true true true 0 "20240315143000" rfl rfl

/-- C3 as the code behaves: after a successful delete whose refresh listing
returns ZERO records, exactly one listing call is made and the fresh
listing is stored in `snapshots`, but the catalog (`timestamp_list`,
`unique_snapshots`) and the displayed lines are NOT rebuilt from it: the
deleted snapshot is still listed.  This contradicts the claim that the
catalog is rebuilt from the listing's result. -/
theorem c3_code_bug :
    formCreate [exRec] = some exForm ∧
    on_delete exArgs exSt 0 "" 0 "" [] =
      some ({ exSt with form := { exForm with snapshots := [] } },
        [Event.runTool ["sudo", "yabsnap", "delete", "20240315143000"],
         Event.notify "Success" "Snapshot deleted successfully",
         Event.runTool listingCmd]) ∧
    ({ exForm with snapshots := ([] : List SnapshotRecord) }).timestamp_list
      = ["20240315143000"] ∧
    ({ exForm with snapshots := ([] : List SnapshotRecord) }).displayed
      = ["15.03.24 14:30 - a (source: s)"] ∧
    ([Event.runTool ["sudo", "yabsnap", "delete", "20240315143000"],
      Event.notify "Success" "Snapshot deleted successfully",
      Event.runTool listingCmd] : List Event).count (Event.runTool listingCmd)
      = 1 := by
  decide

/-- C4: one unparseable line fails the whole listing call (the empty list
is returned with an error notification, never a partially-parsed prefix),
and a refresh whose listing fails this way leaves the prior catalog
untouched. -/
theorem c4_confirmed (recs : List SnapshotRecord)
    (post : List (Option SnapshotRecord)) (se : String) :
    (get_snapshots 0 se (recs.map some ++ none :: post) =
      ([], [Event.runTool listingCmd,
            Event.notify "Error" "An error occurred: invalid JSON line"])) ∧
    (∀ args st drc dse lse st2 ev,
      on_delete args st drc dse 0 lse (recs.map some ++ none :: post)
          = some (st2, ev) →
        st2.form.unique_snapshots = st.form.unique_snapshots ∧
        st2.form.timestamp_list = st.form.timestamp_list) := by
  constructor
  · simp [get_snapshots, parseLines_bad]
  · intro args st drc dse lse st2 ev heq
    unfold on_delete at heq
    rw [Option.bind_eq_some] at heq
    obtain ⟨idx, hv, heq⟩ := heq
    rw [Option.bind_eq_some] at heq
    obtain ⟨ts, ht, heq⟩ := heq
    simp only [Option.map_eq_some'] at heq
    obtain ⟨f2, hu, heq⟩ := heq
    obtain ⟨hcat, hlist, -⟩ := update_snapshot_list_catalog _ _ hu
    have hst : ({ st with form := f2 } : AppState) = st2 := congrArg Prod.fst heq
    rw [← hst]
    exact ⟨hcat, hlist⟩

/-- Witness for C4: the concrete refresh with a single bad line preserves
the sample catalog. -/
theorem c4_witness :
    ({ exSt with form := { exForm with snapshots := [] } } : AppState).form.unique_snapshots
        = exSt.form.unique_snapshots ∧
    ({ exSt with form := { exForm with snapshots := [] } } : AppState).form.timestamp_list
        = exSt.form.timestamp_list :=
  (c4_confirmed [] [] "").2 exArgs exSt 0 "" ""
    { exSt with form := { exForm with snapshots := [] } }
    [Event.runTool ["sudo", "yabsnap", "delete", "20240315143000"],
     Event.notify "Success" "Snapshot deleted successfully",
     Event.runTool listingCmd,
     Event.notify "Error" "An error occurred: invalid JSON line"]
    (by decide)

/-- C5: with the dry-run flag set, every mutating command includes the
`--dry-run` modifier in the external call unconditionally (it is the first
emitted event whatever the exit status), and each success notification is
the non-dry-run text with " (dry run)" appended. -/
theorem c5_confirmed (ts se : String) (rc : Nat) :
    ("--dry-run" ∈ delete_cmd ts true ∧ "--dry-run" ∈ create_cmd true ∧
      "--dry-run" ∈ create_recovery_cmd true) ∧
    ((delete_snapshot ts true rc se).head?
        = some (Event.runTool (delete_cmd ts true)) ∧
      (create_snapshot true rc se).head?
        = some (Event.runTool (create_cmd true)) ∧
      (create_recovery_snapshot true rc se).head?
        = some (Event.runTool (create_recovery_cmd true))) ∧
    (delete_snapshot ts true 0 se =
        [Event.runTool (delete_cmd ts true),
         Event.notify "Success" ("Snapshot deleted successfully" ++ " (dry run)")] ∧
      delete_snapshot ts false 0 se =
        [Event.runTool (delete_cmd ts false),
         Event.notify "Success" "Snapshot deleted successfully"]) ∧
    (create_snapshot true 0 se =
        [Event.runTool (create_cmd true),
         Event.notify "Success" ("Snapshot created successfully" ++ " (dry run)")] ∧
      create_snapshot false 0 se =
        [Event.runTool (create_cmd false),
         Event.notify "Success" "Snapshot created successfully"]) ∧
    (create_recovery_snapshot true 0 se =
        [Event.runTool (create_recovery_cmd true),
         Event.notify "Success"
           ("Recovery snapshot created successfully" ++ " (dry run)")] ∧
      create_recovery_snapshot false 0 se =
        [Event.runTool (create_recovery_cmd false),
         Event.notify "Success" "Recovery snapshot created successfully"]) := by
  refine ⟨⟨?_, ?_, ?_⟩, ⟨?_, ?_, ?_⟩, ⟨?_, ?_⟩, ⟨?_, ?_⟩, ⟨?_, ?_⟩⟩ <;>
    simp [delete_cmd, create_cmd, create_recovery_cmd, delete_snapshot,
      create_snapshot, create_recovery_snapshot]

/-- C7: every non-zero external exit surfaces the raw stderr in an error
notification; a failed delete still leaves the controller live (the
next-form register is untouched, so further input is accepted); and a
startup listing failure yields the empty record list, on which `onStart`
ends the session gracefully after one informational notice. -/
theorem c7_confirmed (ts se sout lse : String) (dry : Bool) (k lrc : Nat)
    (lines : List (Option SnapshotRecord)) :
    (delete_snapshot ts dry (k + 1) se =
      [Event.runTool (delete_cmd ts dry),
       Event.notify "Error" ("Error deleting snapshot:\n" ++ se)]) ∧
    (create_snapshot dry (k + 1) se =
      [Event.runTool (create_cmd dry),
       Event.notify "Error" ("Error creating snapshot:\n" ++ se)]) ∧
    (create_recovery_snapshot dry (k + 1) se =
      [Event.runTool (create_recovery_cmd dry),
       Event.notify "Error" ("Error creating recovery snapshot:\n" ++ se)]) ∧
    (generate_rollback_script ts (k + 1) sout se =
      (none, [Event.runTool ["yabsnap", "rollback-gen", ts],
              Event.notify "Error" ("Error generating rollback script:\n" ++ se)])) ∧
    (get_snapshots (k + 1) se lines =
      ([], [Event.runTool listingCmd,
            Event.notify "Error" ("Error retrieving snapshot list:\n" ++ se)])) ∧
    (∀ args st st2 ev,
      on_delete args st (k + 1) se lrc lse lines = some (st2, ev) →
        Event.notify "Error" ("Error deleting snapshot:\n" ++ se) ∈ ev ∧
        st2.nextForm = st.nextForm) ∧
    (onStart (get_snapshots (k + 1) se lines).1 =
      some ([Event.notify "Info" "No snapshots available for rollback."], none)) := by
  refine ⟨?_, ?_, ?_, ?_, ?_, ?_, ?_⟩
  · simp [delete_snapshot]
  · simp [create_snapshot]
  · simp [create_recovery_snapshot]
  · simp [generate_rollback_script]
  · simp [get_snapshots]
  · intro args st st2 ev heq
    unfold on_delete at heq
    rw [Option.bind_eq_some] at heq
    obtain ⟨idx, hv, heq⟩ := heq
    rw [Option.bind_eq_some] at heq
    obtain ⟨ts2, ht, heq⟩ := heq
    simp only [Option.map_eq_some'] at heq
    obtain ⟨f2, hu, heq⟩ := heq
    have hst : ({ st with form := f2 } : AppState) = st2 := congrArg Prod.fst heq
    have hev : delete_snapshot ts2 args.dry_run (k + 1) se ++
        (get_snapshots lrc lse lines).2 = ev := congrArg Prod.snd heq
    constructor
    · rw [← hev]
      simp [delete_snapshot]
    · rw [← hst]
  · simp [get_snapshots, onStart]

/-- Witness for C7: a delete failing with stderr "boom" notifies the error
and leaves the next-form register at its prior value. -/
theorem c7_witness :
    Event.notify "Error" ("Error deleting snapshot:\n" ++ "boom") ∈
      ([Event.runTool ["sudo", "yabsnap", "delete", "20240315143000"],
        Event.notify "Error" ("Error deleting snapshot:\n" ++ "boom"),
        Event.runTool listingCmd] : List Event) ∧
    ({ exSt with form := { exForm with snapshots := [] } } : AppState).nextForm
        = exSt.nextForm :=
  (c7_confirmed "x" "boom" "" "" false 0 0 []).2.2.2.2.2.1 exArgs exSt
    { exSt with form := { exForm with snapshots := [] } }
    [Event.runTool ["sudo", "yabsnap", "delete", "20240315143000"],
     Event.notify "Error" ("Error deleting snapshot:\n" ++ "boom"),
     Event.runTool listingCmd]
    (by decide)

/-- C8: with zero records from the initial listing, `onStart` emits exactly
one informational notice and sets the next form to `None`: the session ends
without any selection form or action surface ever being created. -/
theorem c8_confirmed :
    onStart [] =
      some ([Event.notify "Info" "No snapshots available for rollback."], none) :=
  rfl

end Yabsnap
